import Mathlib

set_option maxRecDepth 8000

namespace DocIntel

/-- JSON values as produced by the Python `json` module: `null`, booleans,
numbers, strings, the non-standard `NaN`/`Infinity` constants that
`json.loads` accepts, arrays and objects.

A number is the exact rational `mant * 10 ^ exp10`, kept in the canonical
form produced by `normDec` (`mant` not divisible by 10 unless the value is
0); equality of canonical pairs coincides with Python's numeric equality on
the decimal literals JSON can denote. The distinction between Python int and
float is immaterial to the properties below. -/
inductive Json where
  | null
  | bool (b : Bool)
  | num (mant : Int) (exp10 : Int)
  | str (s : String)
  | nan
  | infinity (neg : Bool)
  | arr (elems : List Json)
  | obj (members : List (String × Json))

/-- Python dict assignment `d[k] = v`: replace the value at an existing key in
place, otherwise append the new binding at the end (insertion order kept). -/
def pyDictInsert : List (String × Json) → String → Json → List (String × Json)
  | [], k, v => [(k, v)]
  | (k', v') :: rest, k, v =>
    if k' = k then (k, v) :: rest else (k', v') :: pyDictInsert rest k v

/-- Python dict lookup `d.get(k)`: `none` when the key is absent (distinct from
the key being present with value `null`). -/
def pyDictGet : List (String × Json) → String → Option Json
  | [], _ => none
  | (k', v) :: rest, k => if k' = k then some v else pyDictGet rest k

/-- The whitespace characters the JSON grammar (and Python's scanner) skips. -/
def isJsonWs (c : Char) : Bool :=
  c = ' ' || c = '\t' || c = '\n' || c = '\r'

def skipWs (cs : List Char) : List Char :=
  cs.dropWhile isJsonWs

/-- Single-character JSON string escapes. -/
def escChar : Char → Option Char
  | '"' => some '"'
  | '\\' => some '\\'
  | '/' => some '/'
  | 'b' => some (Char.ofNat 8)
  | 'f' => some (Char.ofNat 12)
  | 'n' => some '\n'
  | 'r' => some '\r'
  | 't' => some '\t'
  | _ => none

def hexVal (c : Char) : Option Nat :=
  if '0' ≤ c ∧ c ≤ '9' then some (c.toNat - 48)
  else if 'a' ≤ c ∧ c ≤ 'f' then some (c.toNat - 87)
  else if 'A' ≤ c ∧ c ≤ 'F' then some (c.toNat - 55)
  else none

/-- Body of a JSON string literal (the opening quote already consumed):
characters up to the closing quote, with escapes; raw control characters
are rejected as in Python's strict mode. -/
def parseStrAux : List Char → List Char → Option (String × List Char)
  | _, [] => none
  | acc, c :: rest =>
    if c = '"' then some ((acc.reverse).asString, rest)
    else if c = '\\' then
      match rest with
      | [] => none
      | 'u' :: h1 :: h2 :: h3 :: h4 :: rest2 =>
        match hexVal h1, hexVal h2, hexVal h3, hexVal h4 with
        | some a, some b, some c2, some d =>
          parseStrAux (Char.ofNat (((a * 16 + b) * 16 + c2) * 16 + d) :: acc) rest2
        | _, _, _, _ => none
      | e :: rest2 =>
        match escChar e with
        | some d => parseStrAux (d :: acc) rest2
        | none => none
    else if c.toNat < 32 then none
    else parseStrAux (c :: acc) rest

def digitsToNat (ds : List Char) : Nat :=
  ds.foldl (fun a c => 10 * a + (c.toNat - 48)) 0

/-- Strip factors of 10 from a nonzero mantissa into the exponent. -/
def stripTensAux : Nat → Int → Int → Int × Int
  | 0, m, e => (m, e)
  | fuel + 1, m, e =>
    if m % 10 = 0 then stripTensAux fuel (m / 10) (e + 1) else (m, e)

/-- Canonical form of the decimal `m * 10 ^ e`: zero is `(0, 0)`, otherwise
the mantissa is not divisible by 10. Two decimals denote the same rational
iff their canonical forms are equal. -/
def normDec (m e : Int) : Int × Int :=
  if m = 0 then (0, 0) else stripTensAux m.natAbs m e

/-- Integer part of a JSON number: `0`, or a nonzero digit followed by digits
(leading zeros are not part of the token, as in Python's scanner). -/
def parseIntPart (cs : List Char) : Option (List Char × List Char) :=
  match cs with
  | '0' :: rest => some (['0'], rest)
  | c :: rest =>
    if c.isDigit then some (c :: rest.takeWhile Char.isDigit, rest.dropWhile Char.isDigit)
    else none
  | [] => none

/-- Optional fractional part `.digits`; consumed only when well formed. -/
def parseFrac (cs : List Char) : List Char × List Char :=
  match cs with
  | '.' :: rest =>
    let ds := rest.takeWhile Char.isDigit
    if ds = [] then ([], cs) else (ds, rest.dropWhile Char.isDigit)
  | _ => ([], cs)

def parseExpTail (rest orig : List Char) : Bool × List Char × List Char :=
  match rest with
  | '+' :: r2 =>
    let ds := r2.takeWhile Char.isDigit
    if ds = [] then (false, [], orig) else (false, ds, r2.dropWhile Char.isDigit)
  | '-' :: r2 =>
    let ds := r2.takeWhile Char.isDigit
    if ds = [] then (false, [], orig) else (true, ds, r2.dropWhile Char.isDigit)
  | _ =>
    let ds := rest.takeWhile Char.isDigit
    if ds = [] then (false, [], orig) else (false, ds, rest.dropWhile Char.isDigit)

/-- Optional exponent part `e[+-]digits`; consumed only when well formed.
Returns (exponent is negative, exponent digits, remaining input). -/
def parseExp (cs : List Char) : Bool × List Char × List Char :=
  match cs with
  | 'e' :: rest => parseExpTail rest cs
  | 'E' :: rest => parseExpTail rest cs
  | _ => (false, [], cs)

/-- A JSON number token, strict grammar as in Python's scanner. -/
def parseNumber (cs : List Char) : Option (Json × List Char) :=
  let sgn := match cs with
    | '-' :: rest => (true, rest)
    | _ => (false, cs)
  match parseIntPart sgn.2 with
  | none => none
  | some (ip, cs1) =>
    let fr := parseFrac cs1
    let ex := parseExp fr.2
    let mant : Int := (if sgn.1 then -1 else 1) * (digitsToNat (ip ++ fr.1) : Int)
    let e : Int := (if ex.1 then -(digitsToNat ex.2.1 : Int) else (digitsToNat ex.2.1 : Int))
      - (fr.1.length : Int)
    let nd := normDec mant e
    some (.num nd.1 nd.2, ex.2.2)

mutual

/-- One JSON value, fuel-indexed; mirrors what Python's `json.loads` accepts,
including the non-standard `NaN`, `Infinity` and `-Infinity` constants. -/
def parseVal : Nat → List Char → Option (Json × List Char)
  | 0, _ => none
  | fuel + 1, cs =>
    match skipWs cs with
    | 'n' :: 'u' :: 'l' :: 'l' :: rest => some (.null, rest)
    | 't' :: 'r' :: 'u' :: 'e' :: rest => some (.bool true, rest)
    | 'f' :: 'a' :: 'l' :: 's' :: 'e' :: rest => some (.bool false, rest)
    | 'N' :: 'a' :: 'N' :: rest => some (.nan, rest)
    | 'I' :: 'n' :: 'f' :: 'i' :: 'n' :: 'i' :: 't' :: 'y' :: rest =>
      some (.infinity false, rest)
    | '-' :: 'I' :: 'n' :: 'f' :: 'i' :: 'n' :: 'i' :: 't' :: 'y' :: rest =>
      some (.infinity true, rest)
    | '"' :: rest => (parseStrAux [] rest).map (fun p => (.str p.1, p.2))
    | '[' :: rest =>
      (match skipWs rest with
       | ']' :: rest2 => some (.arr [], rest2)
       | cs2 => parseElems fuel cs2 [])
    | '{' :: rest =>
      (match skipWs rest with
       | '}' :: rest2 => some (.obj [], rest2)
       | cs2 => parseMembers fuel cs2 [])
    | cs2 => parseNumber cs2

/-- Elements of a JSON array after the opening bracket (nonempty case). -/
def parseElems : Nat → List Char → List Json → Option (Json × List Char)
  | 0, _, _ => none
  | fuel + 1, cs, acc =>
    match parseVal fuel cs with
    | none => none
    | some (v, rest) =>
      match skipWs rest with
      | ',' :: rest2 => parseElems fuel rest2 (v :: acc)
      | ']' :: rest2 => some (.arr (v :: acc).reverse, rest2)
      | _ => none

/-- Members of a JSON object after the opening brace (nonempty case); a
duplicate key overwrites the earlier value, as in a Python dict. -/
def parseMembers : Nat → List Char → List (String × Json) → Option (Json × List Char)
  | 0, _, _ => none
  | fuel + 1, cs, acc =>
    match skipWs cs with
    | '"' :: rest =>
      match parseStrAux [] rest with
      | none => none
      | some (k, rest2) =>
        match skipWs rest2 with
        | ':' :: rest3 =>
          (match parseVal fuel rest3 with
           | none => none
           | some (v, rest4) =>
             match skipWs rest4 with
             | ',' :: rest5 => parseMembers fuel rest5 (pyDictInsert acc k v)
             | '}' :: rest5 => some (.obj (pyDictInsert acc k v), rest5)
             | _ => none)
        | _ => none
    | _ => none

end

/-- Python `json.loads`: a single JSON value spanning the whole input (modulo
surrounding whitespace); `none` models a raised `json.JSONDecodeError`. -/
def pyJsonLoads (s : String) : Option Json :=
  match parseVal (3 * s.length + 3) s.data with
  | some (j, rest) => if skipWs rest = [] then some j else none
  | none => none


/-- Python `str.__getitem__` with slice `[:n]`: the first `n` characters. -/
def pySliceTo (s : String) (n : Nat) : String :=
  (s.data.take n).asString

/-- One left-to-right, non-overlapping deletion/replacement pass, as in Python
`str.replace`: at each position, if the pattern `p :: ps` starts here, emit the
replacement and continue after the match, else keep the character. The fuel is
an upper bound on the number of steps (one per input character suffices). -/
def replList (p : Char) (ps r : List Char) : Nat → List Char → List Char
  | _, [] => []
  | 0, l => l
  | fuel + 1, c :: rest =>
    if p == c && ps.isPrefixOf rest then r ++ replList p ps r fuel (rest.drop ps.length)
    else c :: replList p ps r fuel rest

/-- Python `s.replace(pat, r)` (all occurrences, left to right). -/
def pyReplace (s pat r : String) : String :=
  match pat.data with
  | [] => s
  | p :: ps => (replList p ps r.data (s.length + 1) s.data).asString

/-- The ASCII whitespace characters stripped by Python `str.strip()`. -/
def isPySpace (c : Char) : Bool :=
  c = ' ' || c = '\t' || c = '\n' || c = '\r' || c = Char.ofNat 11 || c = Char.ofNat 12

/-- Python `s.strip()`: remove leading and trailing whitespace. -/
def pyStrip (s : String) : String :=
  (((s.data.dropWhile isPySpace).reverse.dropWhile isPySpace).reverse).asString

/-- RouterAgent.DOCUMENT_TYPES (router_agent.py): the six document types. -/
def DOCUMENT_TYPES : List String :=
  ["invoice", "progress_claim", "contract", "variation", "settlement", "unknown"]

/-- RouterAgent self.model. -/
def routerModel : String := "claude-sonnet-4-20250514"

/-- RouterAgent self.prompt_version. -/
def routerPromptVersion : String := "v1"

/-- The `_meta` value RouterAgent.classify appends to every result. -/
def routerMeta : Json :=
  .obj [("model", .str routerModel), ("prompt_version", .str routerPromptVersion)]

/-- InvoiceAgent self.model. -/
def invoiceModel : String := "claude-sonnet-4-20250514"

/-- InvoiceAgent self.prompt_version. -/
def invoicePromptVersion : String := "v1"

/-- The `_meta` value InvoiceAgent.extract appends to every result. -/
def invoiceMeta : Json :=
  .obj [("model", .str invoiceModel), ("prompt_version", .str invoicePromptVersion)]

/-- The Python `TypeError` raised by `result["_meta"] = ...` when
`json.loads` returned a non-dict value (list, number, string, bool, null). -/
inductive TypeErr where
  | typeError
deriving DecidableEq

/-- RouterAgent.classify (router_agent.py, lines 110-133), viewed from the
model response onward: the prompt construction and network call are the
external language-model backend, whose free-form reply is `response_text`.
`json.loads` failure yields the fallback dict; a parsed non-dict value makes
the `_meta` assignment raise `TypeError`; `_meta` is appended afterwards. -/
def classify (response_text : String) : Except TypeErr (List (String × Json)) :=
  match pyJsonLoads response_text with
  | some (.obj members) => .ok (pyDictInsert members "_meta" routerMeta)
  | some _ => .error .typeError
  | none =>
    .ok (pyDictInsert
      [("document_type", .str "unknown"),
       ("confidence", .num 0 0),
       ("vendor_name", .null),
       ("project_name", .null),
       ("document_date", .null),
       ("amount", .null),
       ("reasoning", .str ("Failed to parse response: " ++ pySliceTo response_text 200))]
      "_meta" routerMeta)

/-- The fence-stripping normalization in InvoiceAgent.extract (line 84):
`response_text.replace("```json", "").replace("```", "").strip()`. -/
def stripCodeFences (s : String) : String :=
  pyStrip (pyReplace (pyReplace s "```json" "") "```" "")

/-- InvoiceAgent.extract (invoice_agent.py, lines 83-98), viewed from the
model response onward; mirrors `classify` but strips code fences first and
uses the invoice-shaped fallback with an `error` field. -/
def extract (response_text : String) : Except TypeErr (List (String × Json)) :=
  match pyJsonLoads (stripCodeFences response_text) with
  | some (.obj members) => .ok (pyDictInsert members "_meta" invoiceMeta)
  | some _ => .error .typeError
  | none =>
    .ok (pyDictInsert
      [("invoice_number", .null),
       ("vendor_name", .null),
       ("vendor_abn", .null),
       ("invoice_date", .null),
       ("due_date", .null),
       ("project_reference", .null),
       ("description", .null),
       ("line_items", .arr []),
       ("subtotal", .null),
       ("gst_amount", .null),
       ("total_inc_gst", .null),
       ("payment_terms", .null),
       ("error", .str ("Failed to parse response: "
         ++ pySliceTo (stripCodeFences response_text) 200))]
      "_meta" invoiceMeta)

/-- Field access on a successful agent result: `none` when the call raised or
the key is absent. -/
def classifyField (response_text key : String) : Option Json :=
  match classify response_text with
  | .ok d => pyDictGet d key
  | .error _ => none

def extractField (response_text key : String) : Option Json :=
  match extract response_text with
  | .ok d => pyDictGet d key
  | .error _ => none

/-- The Python exception kinds observable from pdf_utils.extract_text:
`FileNotFoundError`, the `ValueError` from `_get_client`, the wrapping
`RuntimeError`, and an arbitrary exception raised by the Azure OCR backend
(network, auth, malformed document, analysis failure), identified by its
`str(e)` rendering. -/
inductive PyExn where
  | fileNotFoundError (msg : String)
  | valueError (msg : String)
  | runtimeError (msg : String)
  | backendError (msg : String)
deriving DecidableEq

/-- Python `str(e)` as used by the f-string `f"Failed to extract text: {e}"`. -/
def exnStr : PyExn → String
  | .fileNotFoundError m => m
  | .valueError m => m
  | .runtimeError m => m
  | .backendError m => m

/-- One page of an Azure Document Intelligence read result; `lines` is `none`
when the service returns no `lines` attribute (the code guards with
`page.lines or []`). -/
structure OcrPage where
  lines : Option (List String)

/-- The ambient state pdf_utils reads: the two environment secrets (an unset
variable is `none`; Python also treats the empty string as missing via
`if not endpoint or not key`), the filesystem, and the OCR backend, which for
a given path either returns pages or raises some exception. -/
structure OcrEnv where
  endpoint : Option String
  key : Option String
  fileExists : String → Bool
  analyze : String → Except PyExn (List OcrPage)

/-- Python falsiness of an optional string: `None` or `""`. -/
def pyFalsy : Option String → Bool
  | none => true
  | some s => s == ""

/-- pdf_utils._get_client (lines 21-27): raises `ValueError` when either
secret is missing; client construction itself is not modelled further. -/
def getClient (env : OcrEnv) : Except PyExn Unit :=
  if pyFalsy env.endpoint || pyFalsy env.key then
    .error (.valueError "Missing AZURE_DOC_INTEL_ENDPOINT or AZURE_DOC_INTEL_KEY in .env")
  else .ok ()

/-- The `try` block body of extract_text (lines 44-54): build the client,
submit the document, wait for the result, and join all recognized lines in
page-then-line order with newlines. -/
def extractTextBody (env : OcrEnv) (file_path : String) : Except PyExn String :=
  match getClient env with
  | .error e => .error e
  | .ok _ =>
    match env.analyze file_path with
    | .error e => .error e
    | .ok pages =>
      .ok (String.intercalate "\n" ((pages.map (fun p => p.lines.getD [])).flatten))

/-- pdf_utils.extract_text (lines 30-57): `FileNotFoundError` when the path
does not exist (checked before anything else); any exception escaping the
`try` block - including the `ValueError` from `_get_client`, which is called
inside it - is re-raised as `RuntimeError(f"Failed to extract text: {e}")`. -/
def extract_text (env : OcrEnv) (file_path : String) : Except PyExn String :=
  if env.fileExists file_path then
    match extractTextBody env file_path with
    | .ok t => .ok t
    | .error e => .error (.runtimeError ("Failed to extract text: " ++ exnStr e))
  else .error (.fileNotFoundError ("File not found: " ++ file_path))

/-- The seven field keys the spec declares for a ClassificationResult. -/
def classificationFieldKeys : List String :=
  ["document_type", "confidence", "vendor_name", "project_name",
   "document_date", "amount", "reasoning"]

/-- The twelve field keys the spec declares for an InvoiceRecord (the
optional `error` key aside). -/
def invoiceFieldKeys : List String :=
  ["invoice_number", "vendor_name", "vendor_abn", "invoice_date", "due_date",
   "project_reference", "description", "line_items", "subtotal", "gst_amount",
   "total_inc_gst", "payment_terms"]

def isNullOrStr : Json → Bool
  | .null => true
  | .str _ => true
  | _ => false

def isNullOrNum : Json → Bool
  | .null => true
  | .num _ _ => true
  | _ => false

/-- The decimal `m * 10 ^ e` lies in `[0, 1]` (confidence range). -/
def decInUnitRange (m e : Int) : Bool :=
  0 ≤ m && (if 0 ≤ e then m * 10 ^ e.toNat ≤ 1 else m ≤ 10 ^ (-e).toNat)

def keyIsNullOrStr (members : List (String × Json)) (k : String) : Bool :=
  match pyDictGet members k with
  | some v => isNullOrStr v
  | none => false

def keyIsNullOrNum (members : List (String × Json)) (k : String) : Bool :=
  match pyDictGet members k with
  | some v => isNullOrNum v
  | none => false

/-- Modelled from the spec (declared shape of a ClassificationResult, spec
section 3): exactly the seven declared keys, `document_type` one of the six
enumerated strings, `confidence` a number in `[0, 1]`, optional strings for
vendor/project/date/reasoning, optional number for `amount`. -/
def matchesClassificationSchema (members : List (String × Json)) : Bool :=
  (members.map Prod.fst == classificationFieldKeys)
  && (match pyDictGet members "document_type" with
      | some (.str d) => DOCUMENT_TYPES.contains d
      | _ => false)
  && (match pyDictGet members "confidence" with
      | some (.num m e) => decInUnitRange m e
      | _ => false)
  && keyIsNullOrStr members "vendor_name"
  && keyIsNullOrStr members "project_name"
  && keyIsNullOrStr members "document_date"
  && keyIsNullOrNum members "amount"
  && keyIsNullOrStr members "reasoning"

/-- Modelled from the spec (line item shape, spec section 3): description,
quantity, unit_price, amount. -/
def isLineItem : Json → Bool
  | .obj im =>
    (im.map Prod.fst == ["description", "quantity", "unit_price", "amount"])
    && (match pyDictGet im "description" with | some (.str _) => true | _ => false)
    && keyIsNullOrNum im "quantity"
    && keyIsNullOrNum im "unit_price"
    && keyIsNullOrNum im "amount"
  | _ => false

/-- Modelled from the spec (declared shape of an InvoiceRecord, spec section
3): exactly the twelve declared keys, optional strings, a (possibly empty)
list of line items, optional numeric totals. -/
def matchesInvoiceSchema (members : List (String × Json)) : Bool :=
  (members.map Prod.fst == invoiceFieldKeys)
  && keyIsNullOrStr members "invoice_number"
  && keyIsNullOrStr members "vendor_name"
  && keyIsNullOrStr members "vendor_abn"
  && keyIsNullOrStr members "invoice_date"
  && keyIsNullOrStr members "due_date"
  && keyIsNullOrStr members "project_reference"
  && keyIsNullOrStr members "description"
  && (match pyDictGet members "line_items" with
      | some (.arr items) => items.all isLineItem
      | _ => false)
  && keyIsNullOrNum members "subtotal"
  && keyIsNullOrNum members "gst_amount"
  && keyIsNullOrNum members "total_inc_gst"
  && keyIsNullOrStr members "payment_terms"

/-- Looking up a key other than the one just assigned is unaffected by the
assignment. -/
theorem pyDictGet_insert_ne (d : List (String × Json)) (k k' : String) (v : Json)
    (h : k' ≠ k) : pyDictGet (pyDictInsert d k v) k' = pyDictGet d k' := by
  have hne : k ≠ k' := fun hh => h hh.symm
  induction d with
  | nil => simp [pyDictInsert, pyDictGet, hne]
  | cons hd tl ih =>
    obtain ⟨k1, v1⟩ := hd
    by_cases hk : k1 = k
    · subst hk
      simp [pyDictInsert, pyDictGet, hne]
    · simp [pyDictInsert, pyDictGet, hk, ih]

/-- Looking up the key just assigned returns the assigned value. -/
theorem pyDictGet_insert_self (d : List (String × Json)) (k : String) (v : Json) :
    pyDictGet (pyDictInsert d k v) k = some v := by
  induction d with
  | nil => simp [pyDictInsert, pyDictGet]
  | cons hd tl ih =>
    obtain ⟨k1, v1⟩ := hd
    by_cases hk : k1 = k
    · subst hk
      simp [pyDictInsert, pyDictGet]
    · simp [pyDictInsert, pyDictGet, hk, ih]

/-- A `[:n]` slice is at most `n` characters long. -/
theorem pySliceTo_length_le (s : String) (n : Nat) : (pySliceTo s n).length ≤ n := by
  show (s.data.take n).length ≤ n
  rw [List.length_take]
  exact min_le_left _ _

/-- The parse outcomes on which the `_meta` assignment cannot raise: parse
failure (the fallback dict) or a parsed JSON object. -/
def isObjOrNone : Option Json → Bool
  | none => true
  | some (.obj _) => true
  | _ => false

/-- The call raised the uniform wrapper `RuntimeError` (and in particular not
a raw backend exception). -/
def raisesRuntimeError (r : Except PyExn String) : Bool :=
  match r with
  | .error (.runtimeError _) => true
  | _ => false

/-- C2: for every model response text that is not valid JSON, `classify`
returns exactly the fallback ClassificationResult: `document_type` =
"unknown", `confidence` = 0.0, `vendor_name`, `project_name`,
`document_date` and `amount` all null, and `reasoning` the explanatory
prefix "Failed to parse response: " followed by the first at most 200
characters of the raw response (with the `_meta` provenance appended, as on
every path). -/
theorem c2_parse_failure_fallback (s : String) (hs : pyJsonLoads s = none) :
    classify s = .ok
      [("document_type", .str "unknown"),
       ("confidence", .num 0 0),
       ("vendor_name", .null),
       ("project_name", .null),
       ("document_date", .null),
       ("amount", .null),
       ("reasoning", .str ("Failed to parse response: " ++ pySliceTo s 200)),
       ("_meta", .obj [("model", .str "claude-sonnet-4-20250514"),
                       ("prompt_version", .str "v1")])]
    ∧ (pySliceTo s 200).length ≤ 200 := by
  constructor
  · unfold classify
    rw [hs]
    rfl
  · exact pySliceTo_length_le s 200

/-- Witness for C2 at the non-JSON response "I cannot classify this document.". -/
theorem c2_parse_failure_fallback_witness :
    classify "I cannot classify this document." = .ok
      [("document_type", .str "unknown"),
       ("confidence", .num 0 0),
       ("vendor_name", .null),
       ("project_name", .null),
       ("document_date", .null),
       ("amount", .null),
       ("reasoning", .str ("Failed to parse response: "
         ++ pySliceTo "I cannot classify this document." 200)),
       ("_meta", .obj [("model", .str "claude-sonnet-4-20250514"),
                       ("prompt_version", .str "v1")])]
    ∧ (pySliceTo "I cannot classify this document." 200).length ≤ 200 :=
  c2_parse_failure_fallback "I cannot classify this document." rfl

/-- C1 counterexample: the valid-JSON response claiming the unrecognized
type "spreadsheet" is passed through by `classify` unchanged - the returned
`document_type` is "spreadsheet", which is not one of the six enumerated
values, and `confidence` is the model value 0.9, not 0.0. -/
theorem c1_counterexample :
    classifyField "\x7b\"document_type\": \"spreadsheet\", \"confidence\": 0.9\x7d"
        "document_type" = some (.str "spreadsheet")
    ∧ DOCUMENT_TYPES.contains "spreadsheet" = false
    ∧ classifyField "\x7b\"document_type\": \"spreadsheet\", \"confidence\": 0.9\x7d"
        "confidence" = some (.num 9 (-1)) :=
  ⟨rfl, rfl, rfl⟩

/-- C1 (amended): `document_type` is coerced to "unknown" with `confidence`
0.0 only on JSON-parse failure, and "unknown" is one of the six enumerated
values; for a response that parses to a JSON object, whatever
`document_type` value the model emitted is returned unchanged - an
unrecognized string is not coerced. -/
theorem c1_enum_only_on_fallback (s t : String) (m : List (String × Json)) (v : Json)
    (hs : pyJsonLoads s = none)
    (ht : pyJsonLoads t = some (.obj m))
    (hv : pyDictGet m "document_type" = some v) :
    classifyField s "document_type" = some (.str "unknown")
    ∧ classifyField s "confidence" = some (.num 0 0)
    ∧ "unknown" ∈ DOCUMENT_TYPES
    ∧ classifyField t "document_type" = some v := by
  refine ⟨?_, ?_, by decide, ?_⟩
  · unfold classifyField classify
    rw [hs]
    rfl
  · unfold classifyField classify
    rw [hs]
    rfl
  · unfold classifyField classify
    rw [ht]
    show pyDictGet (pyDictInsert m "_meta" routerMeta) "document_type" = some v
    rw [pyDictGet_insert_ne m "_meta" "document_type" routerMeta (by decide)]
    exact hv

/-- Witness for C1 (amended) at the non-JSON response "no json here" and the
unrecognized-type response. -/
theorem c1_enum_only_on_fallback_witness :
    classifyField "no json here" "document_type" = some (.str "unknown")
    ∧ classifyField "no json here" "confidence" = some (.num 0 0)
    ∧ "unknown" ∈ DOCUMENT_TYPES
    ∧ classifyField "\x7b\"document_type\": \"spreadsheet\", \"confidence\": 0.9\x7d"
        "document_type" = some (.str "spreadsheet") :=
  c1_enum_only_on_fallback "no json here"
    "\x7b\"document_type\": \"spreadsheet\", \"confidence\": 0.9\x7d"
    [("document_type", .str "spreadsheet"), ("confidence", .num 9 (-1))]
    (.str "spreadsheet") (by rfl) (by rfl) (by rfl)

/-- C3 counterexample: for the non-JSON response "a```b" the extractor's
`error` excerpt is taken from the fence-stripped text "ab", which is not the
(at most 200 character) prefix of the raw response "a```b" the claim
describes. -/
theorem c3_counterexample :
    extractField "a```b" "error" = some (.str "Failed to parse response: ab")
    ∧ pySliceTo "a```b" 200 = "a```b"
    ∧ extractField "a```b" "error"
      ≠ some (.str ("Failed to parse response: " ++ pySliceTo "a```b" 200)) := by
  refine ⟨rfl, rfl, ?_⟩
  intro h
  rw [show extractField "a```b" "error"
      = some (Json.str "Failed to parse response: ab") from rfl] at h
  rw [show ("Failed to parse response: " ++ pySliceTo "a```b" 200)
      = "Failed to parse response: a```b" from rfl] at h
  simp at h

/-- C3 (amended): when the fence-stripped response is not valid JSON,
`extract` returns the invoice-shaped default record (all string fields
null, `line_items` empty, all totals null) plus an `error` field carrying
the truncated (at most 200 character) excerpt of the fence-stripped
response text; the classifier's parse-failure fallback has no `error` key -
the classifier signals failure via `reasoning`, the extractor via `error`. -/
theorem c3_error_field_asymmetry (s t : String)
    (hs : pyJsonLoads (stripCodeFences s) = none)
    (ht : pyJsonLoads t = none) :
    extract s = .ok
      [("invoice_number", .null),
       ("vendor_name", .null),
       ("vendor_abn", .null),
       ("invoice_date", .null),
       ("due_date", .null),
       ("project_reference", .null),
       ("description", .null),
       ("line_items", .arr []),
       ("subtotal", .null),
       ("gst_amount", .null),
       ("total_inc_gst", .null),
       ("payment_terms", .null),
       ("error", .str ("Failed to parse response: "
         ++ pySliceTo (stripCodeFences s) 200)),
       ("_meta", .obj [("model", .str "claude-sonnet-4-20250514"),
                       ("prompt_version", .str "v1")])]
    ∧ (pySliceTo (stripCodeFences s) 200).length ≤ 200
    ∧ classifyField t "error" = none := by
  refine ⟨?_, pySliceTo_length_le _ 200, ?_⟩
  · unfold extract
    rw [hs]
    rfl
  · unfold classifyField classify
    rw [ht]
    rfl

/-- Witness for C3 (amended) at the fenced non-JSON response "``` oops" and
the non-JSON response "nah". -/
theorem c3_error_field_asymmetry_witness :
    extract "``` oops" = .ok
      [("invoice_number", .null),
       ("vendor_name", .null),
       ("vendor_abn", .null),
       ("invoice_date", .null),
       ("due_date", .null),
       ("project_reference", .null),
       ("description", .null),
       ("line_items", .arr []),
       ("subtotal", .null),
       ("gst_amount", .null),
       ("total_inc_gst", .null),
       ("payment_terms", .null),
       ("error", .str ("Failed to parse response: "
         ++ pySliceTo (stripCodeFences "``` oops") 200)),
       ("_meta", .obj [("model", .str "claude-sonnet-4-20250514"),
                       ("prompt_version", .str "v1")])]
    ∧ (pySliceTo (stripCodeFences "``` oops") 200).length ≤ 200
    ∧ classifyField "nah" "error" = none :=
  c3_error_field_asymmetry "``` oops" "nah" rfl rfl

/-- C4: a backend response whose raw text is not valid JSON but whose
fence-stripped text parses as a JSON object is parsed successfully by
`extract` (which strips the Markdown code fences), while `classify`, which
performs no stripping, fails to parse the same text and returns its
fallback result. -/
theorem c4_fence_asymmetry (s : String) (m : List (String × Json))
    (h1 : pyJsonLoads s = none)
    (h2 : pyJsonLoads (stripCodeFences s) = some (.obj m)) :
    extract s = .ok (pyDictInsert m "_meta" invoiceMeta)
    ∧ classify s = .ok
      [("document_type", .str "unknown"),
       ("confidence", .num 0 0),
       ("vendor_name", .null),
       ("project_name", .null),
       ("document_date", .null),
       ("amount", .null),
       ("reasoning", .str ("Failed to parse response: " ++ pySliceTo s 200)),
       ("_meta", .obj [("model", .str "claude-sonnet-4-20250514"),
                       ("prompt_version", .str "v1")])] := by
  constructor
  · unfold extract
    rw [h2]
  · unfold classify
    rw [h1]
    rfl

/-- Witness for C4 at a representative fenced response: the fenced JSON
object parses via `extract` and falls back via `classify`. -/
theorem c4_fence_asymmetry_witness :
    extract "```json\n\x7b\"document_type\": \"invoice\", \"confidence\": 0.95\x7d\n```"
      = .ok (pyDictInsert
          [("document_type", .str "invoice"), ("confidence", .num 95 (-2))]
          "_meta" invoiceMeta)
    ∧ classify "```json\n\x7b\"document_type\": \"invoice\", \"confidence\": 0.95\x7d\n```"
      = .ok
      [("document_type", .str "unknown"),
       ("confidence", .num 0 0),
       ("vendor_name", .null),
       ("project_name", .null),
       ("document_date", .null),
       ("amount", .null),
       ("reasoning", .str ("Failed to parse response: "
         ++ pySliceTo "```json\n\x7b\"document_type\": \"invoice\", \"confidence\": 0.95\x7d\n```" 200)),
       ("_meta", .obj [("model", .str "claude-sonnet-4-20250514"),
                       ("prompt_version", .str "v1")])] :=
  c4_fence_asymmetry
    "```json\n\x7b\"document_type\": \"invoice\", \"confidence\": 0.95\x7d\n```"
    [("document_type", .str "invoice"), ("confidence", .num 95 (-2))] rfl rfl

/-- A parse outcome on which the `_meta` assignment cannot raise is either a
parse failure or a parsed object. -/
theorem isObjOrNone_elim (o : Option Json) (ho : isObjOrNone o = true) :
    o = none ∨ ∃ m, o = some (Json.obj m) := by
  cases o with
  | none => exact Or.inl rfl
  | some j =>
    cases j with
    | obj m => exact Or.inr ⟨m, rfl⟩
    | null => simp [isObjOrNone] at ho
    | bool b => simp [isObjOrNone] at ho
    | num a b => simp [isObjOrNone] at ho
    | str a => simp [isObjOrNone] at ho
    | nan => simp [isObjOrNone] at ho
    | infinity b => simp [isObjOrNone] at ho
    | arr l => simp [isObjOrNone] at ho

/-- C5 counterexample: a model response that is valid JSON but not an object
makes the `_meta` assignment raise `TypeError` in both agents - `classify`
on the response "5" and `extract` on the response "[1, 2]" both throw
rather than returning a well-formed result. -/
theorem c5_counterexample :
    classify "5" = .error .typeError ∧ extract "[1, 2]" = .error .typeError :=
  ⟨rfl, rfl⟩

/-- C5 (amended): for every model response text that is not valid JSON or
that parses to a JSON object, `classify` and `extract` return a well-formed
result (with `_meta` provenance attached) and never throw; only a
valid-JSON response that is not an object (number, string, list, boolean,
null) raises, via the `_meta` assignment. -/
theorem c5_no_throw_on_obj_or_failure (s t : String)
    (hs : isObjOrNone (pyJsonLoads s) = true)
    (ht : isObjOrNone (pyJsonLoads (stripCodeFences t)) = true) :
    (classify s).isOk = true
    ∧ classifyField s "_meta" = some routerMeta
    ∧ (extract t).isOk = true
    ∧ extractField t "_meta" = some invoiceMeta := by
  have hc : (classify s).isOk = true ∧ classifyField s "_meta" = some routerMeta := by
    obtain hn | ⟨m, hm⟩ := isObjOrNone_elim _ hs
    · unfold classifyField classify
      rw [hn]
      exact ⟨rfl, rfl⟩
    · unfold classifyField classify
      rw [hm]
      exact ⟨rfl, pyDictGet_insert_self m "_meta" routerMeta⟩
  have he : (extract t).isOk = true ∧ extractField t "_meta" = some invoiceMeta := by
    obtain hn | ⟨m, hm⟩ := isObjOrNone_elim _ ht
    · unfold extractField extract
      rw [hn]
      exact ⟨rfl, rfl⟩
    · unfold extractField extract
      rw [hm]
      exact ⟨rfl, pyDictGet_insert_self m "_meta" invoiceMeta⟩
  exact ⟨hc.1, hc.2, he.1, he.2⟩

/-- Witness for C5 (amended): the non-JSON response "Sure, here you go" for
the classifier and the fenced object response for the extractor. -/
theorem c5_no_throw_on_obj_or_failure_witness :
    (classify "Sure, here you go").isOk = true
    ∧ classifyField "Sure, here you go" "_meta" = some routerMeta
    ∧ (extract "```json\x7b\"subtotal\": 100\x7d```").isOk = true
    ∧ extractField "```json\x7b\"subtotal\": 100\x7d```" "_meta" = some invoiceMeta :=
  c5_no_throw_on_obj_or_failure "Sure, here you go" "```json\x7b\"subtotal\": 100\x7d```"
    (by rfl) (by rfl)

/-- C6 counterexample: on the valid-JSON response "\x7b\x7d" (an empty object)
the classifier's result contains only the `_meta` key - the declared
`document_type` key is absent, not null - and likewise the extractor's
result lacks `invoice_number`; callers would have to check key existence. -/
theorem c6_counterexample :
    classify "\x7b\x7d" = .ok [("_meta", routerMeta)]
    ∧ classifyField "\x7b\x7d" "document_type" = none
    ∧ extract "\x7b\x7d" = .ok [("_meta", invoiceMeta)]
    ∧ extractField "\x7b\x7d" "invoice_number" = none :=
  ⟨rfl, rfl, rfl, rfl⟩

/-- C6 (amended): on the JSON-parse-failure path, every declared
ClassificationResult field key is present in the `classify` result and every
declared InvoiceRecord field key is present in the `extract` result (value
null when unknown); on a successful parse the result carries exactly the
keys the model emitted (plus `_meta`), so a declared key can be absent. -/
theorem c6_fallback_has_all_keys (s t k1 k2 : String)
    (hs : pyJsonLoads s = none)
    (ht : pyJsonLoads (stripCodeFences t) = none)
    (hk1 : k1 ∈ classificationFieldKeys)
    (hk2 : k2 ∈ invoiceFieldKeys) :
    (classifyField s k1).isSome = true ∧ (extractField t k2).isSome = true := by
  constructor
  · unfold classifyField classify
    rw [hs]
    fin_cases hk1 <;> rfl
  · unfold extractField extract
    rw [ht]
    fin_cases hk2 <;> rfl

/-- Witness for C6 (amended) at the non-JSON responses "x" and "y" and the
declared keys "amount" and "line_items". -/
theorem c6_fallback_has_all_keys_witness :
    (classifyField "x" "amount").isSome = true
    ∧ (extractField "y" "line_items").isSome = true :=
  c6_fallback_has_all_keys "x" "y" "amount" "line_items" (by rfl) (by rfl)
    (by decide) (by decide)

/-- Environment with a missing endpoint secret, an existing file, and a
backend that would succeed. -/
def c7Env : OcrEnv :=
  ⟨none, some "key123", fun _ => true, fun _ => .ok []⟩

/-- C7 counterexample: with the endpoint secret missing and an existing
input path, the `ValueError` raised by `_get_client` is caught by the
`try` block of `extract_text` and re-raised wrapped as the uniform
`RuntimeError` (the ExtractionError kind) - not surfaced as a distinct
configuration error. -/
theorem c7_counterexample :
    extract_text c7Env "invoice.pdf"
      = .error (.runtimeError
          "Failed to extract text: Missing AZURE_DOC_INTEL_ENDPOINT or AZURE_DOC_INTEL_KEY in .env")
    ∧ extract_text c7Env "invoice.pdf"
      ≠ .error (.valueError
          "Missing AZURE_DOC_INTEL_ENDPOINT or AZURE_DOC_INTEL_KEY in .env") := by
  refine ⟨rfl, ?_⟩
  have hEq : extract_text c7Env "invoice.pdf"
      = .error (.runtimeError
          "Failed to extract text: Missing AZURE_DOC_INTEL_ENDPOINT or AZURE_DOC_INTEL_KEY in .env") :=
    rfl
  rw [hEq]
  simp

/-- C7 (amended): `extract_text` fails with `NotFoundError` when the path
does not exist, before anything else is attempted; when the path exists and
either required secret is absent, the configuration `ValueError` is raised
inside the `try` block and therefore surfaces wrapped as the uniform
`ExtractionError` (`RuntimeError`), carrying the configuration message. -/
theorem c7_error_kinds (env1 env2 : OcrEnv) (p1 p2 : String)
    (h1 : env1.fileExists p1 = false)
    (h2 : env2.fileExists p2 = true)
    (h3 : (pyFalsy env2.endpoint || pyFalsy env2.key) = true) :
    extract_text env1 p1 = .error (.fileNotFoundError ("File not found: " ++ p1))
    ∧ extract_text env2 p2
      = .error (.runtimeError
          "Failed to extract text: Missing AZURE_DOC_INTEL_ENDPOINT or AZURE_DOC_INTEL_KEY in .env") := by
  constructor
  · unfold extract_text
    rw [h1]
    rfl
  · unfold extract_text extractTextBody getClient
    rw [h2, h3]
    rfl

/-- Environment with both secrets present but a nonexistent file. -/
def c7EnvNoFile : OcrEnv :=
  ⟨some "https://example.cognitiveservices.azure.com/", some "key123",
   fun _ => false, fun _ => .ok []⟩

/-- Witness for C7 (amended) at a nonexistent path and at the
missing-endpoint environment. -/
theorem c7_error_kinds_witness :
    extract_text c7EnvNoFile "missing.pdf"
      = .error (.fileNotFoundError "File not found: missing.pdf")
    ∧ extract_text c7Env "invoice.pdf"
      = .error (.runtimeError
          "Failed to extract text: Missing AZURE_DOC_INTEL_ENDPOINT or AZURE_DOC_INTEL_KEY in .env") :=
  c7_error_kinds c7EnvNoFile c7Env "missing.pdf" "invoice.pdf" (by rfl) (by rfl) (by rfl)

/-- C8: for an existing input path and well-configured secrets, any
exception the OCR backend raises is caught by `extract_text` and re-raised
as the single uniform `RuntimeError` (`ExtractionError`) wrapping the
underlying cause's message; in particular the caller never observes the raw
backend exception kind. -/
theorem c8_uniform_wrapping (env : OcrEnv) (p : String) (e : PyExn)
    (h1 : env.fileExists p = true)
    (h2 : getClient env = .ok ())
    (h3 : env.analyze p = .error e) :
    extract_text env p = .error (.runtimeError ("Failed to extract text: " ++ exnStr e))
    ∧ raisesRuntimeError (extract_text env p) = true := by
  have hmain : extract_text env p
      = .error (.runtimeError ("Failed to extract text: " ++ exnStr e)) := by
    unfold extract_text extractTextBody
    rw [h1, h2, h3]
    rfl
  refine ⟨hmain, ?_⟩
  rw [hmain]
  rfl

/-- Environment with both secrets present, an existing file, and a backend
that raises a generic failure. -/
def c8Env : OcrEnv :=
  ⟨some "https://example.cognitiveservices.azure.com/", some "key123",
   fun _ => true, fun _ => .error (.backendError "connection reset by peer")⟩

/-- Witness for C8 at a backend raising "connection reset by peer". -/
theorem c8_uniform_wrapping_witness :
    extract_text c8Env "doc.pdf"
      = .error (.runtimeError "Failed to extract text: connection reset by peer")
    ∧ raisesRuntimeError (extract_text c8Env "doc.pdf") = true :=
  c8_uniform_wrapping c8Env "doc.pdf" (.backendError "connection reset by peer")
    (by rfl) (by rfl) (by rfl)

/-- A schema-valid invoice response whose `description` string contains a
Markdown fence substring. -/
def c9FencePollutedResp : String :=
  "\x7b\"invoice_number\": \"INV-1\", \"vendor_name\": null, \"vendor_abn\": null, \"invoice_date\": null, \"due_date\": null, \"project_reference\": null, \"description\": \"a```b\", \"line_items\": [], \"subtotal\": null, \"gst_amount\": null, \"total_inc_gst\": null, \"payment_terms\": null\x7d"

/-- The members `json.loads` yields for `c9FencePollutedResp` taken as-is. -/
def c9FencePollutedMembers : List (String × Json) :=
  [("invoice_number", .str "INV-1"), ("vendor_name", .null), ("vendor_abn", .null),
   ("invoice_date", .null), ("due_date", .null), ("project_reference", .null),
   ("description", .str "a```b"), ("line_items", .arr []), ("subtotal", .null),
   ("gst_amount", .null), ("total_inc_gst", .null), ("payment_terms", .null)]

/-- C9 counterexample: a schema-valid JSON response whose `description`
value contains "```" is altered by `extract` - the fence substrings are
deleted before parsing, so the returned field is "ab", not the parsed value
"a```b" of the response. -/
theorem c9_counterexample :
    pyJsonLoads c9FencePollutedResp = some (.obj c9FencePollutedMembers)
    ∧ matchesInvoiceSchema c9FencePollutedMembers = true
    ∧ pyDictGet c9FencePollutedMembers "description" = some (.str "a```b")
    ∧ extractField c9FencePollutedResp "description" = some (.str "ab")
    ∧ ¬ ("ab" = "a```b") :=
  ⟨rfl, rfl, rfl, rfl, by decide⟩

/-- C9 (amended): for a response parsing to a schema-valid JSON object,
`classify` returns every field equal to the parsed value of the raw
response, and `extract` returns every field equal to the parsed value of
the fence-stripped response text (which coincides with the raw response
whenever it contains no "```" substring); apart from the appended `_meta`,
no field is coerced or altered relative to that parse. -/
theorem c9_passthrough (s t k1 k2 : String) (m1 m2 : List (String × Json))
    (h1 : pyJsonLoads s = some (.obj m1))
    (hs1 : matchesClassificationSchema m1 = true)
    (h2 : pyJsonLoads (stripCodeFences t) = some (.obj m2))
    (hs2 : matchesInvoiceSchema m2 = true)
    (hk1 : k1 ≠ "_meta") (hk2 : k2 ≠ "_meta") :
    classifyField s k1 = pyDictGet m1 k1
    ∧ extractField t k2 = pyDictGet m2 k2 := by
  constructor
  · unfold classifyField classify
    rw [h1]
    show pyDictGet (pyDictInsert m1 "_meta" routerMeta) k1 = pyDictGet m1 k1
    exact pyDictGet_insert_ne m1 "_meta" k1 routerMeta hk1
  · unfold extractField extract
    rw [h2]
    show pyDictGet (pyDictInsert m2 "_meta" invoiceMeta) k2 = pyDictGet m2 k2
    exact pyDictGet_insert_ne m2 "_meta" k2 invoiceMeta hk2

/-- A schema-valid classification response. -/
def c9ClassResp : String :=
  "\x7b\"document_type\": \"invoice\", \"confidence\": 0.9, \"vendor_name\": \"Smith Constructions Pty Ltd\", \"project_name\": null, \"document_date\": \"2024-03-15\", \"amount\": 24200.0, \"reasoning\": \"Has TAX INVOICE header\"\x7d"

/-- The members `json.loads` yields for `c9ClassResp`. -/
def c9ClassMembers : List (String × Json) :=
  [("document_type", .str "invoice"), ("confidence", .num 9 (-1)),
   ("vendor_name", .str "Smith Constructions Pty Ltd"), ("project_name", .null),
   ("document_date", .str "2024-03-15"), ("amount", .num 242 2),
   ("reasoning", .str "Has TAX INVOICE header")]

/-- A schema-valid, fence-free invoice response. -/
def c9InvResp : String :=
  "\x7b\"invoice_number\": \"INV-2024-001\", \"vendor_name\": \"Smith Constructions Pty Ltd\", \"vendor_abn\": \"12 345 678 901\", \"invoice_date\": \"2024-03-15\", \"due_date\": \"2024-03-29\", \"project_reference\": \"Balmoral Estate - Lot 42\", \"description\": \"Concrete slab pour\", \"line_items\": [\x7b\"description\": \"Concrete slab pour\", \"quantity\": 1, \"unit_price\": 15000.0, \"amount\": 15000.0\x7d], \"subtotal\": 15000.0, \"gst_amount\": 1500.0, \"total_inc_gst\": 16500.0, \"payment_terms\": \"14 days\"\x7d"

/-- The members `json.loads` yields for `c9InvResp`. -/
def c9InvMembers : List (String × Json) :=
  [("invoice_number", .str "INV-2024-001"),
   ("vendor_name", .str "Smith Constructions Pty Ltd"),
   ("vendor_abn", .str "12 345 678 901"),
   ("invoice_date", .str "2024-03-15"),
   ("due_date", .str "2024-03-29"),
   ("project_reference", .str "Balmoral Estate - Lot 42"),
   ("description", .str "Concrete slab pour"),
   ("line_items", .arr [.obj
     [("description", .str "Concrete slab pour"), ("quantity", .num 1 0),
      ("unit_price", .num 15 3), ("amount", .num 15 3)]]),
   ("subtotal", .num 15 3),
   ("gst_amount", .num 15 2),
   ("total_inc_gst", .num 165 2),
   ("payment_terms", .str "14 days")]

/-- Witness for C9 (amended) at concrete schema-valid responses. -/
theorem c9_passthrough_witness :
    classifyField c9ClassResp "document_type" = pyDictGet c9ClassMembers "document_type"
    ∧ extractField c9InvResp "subtotal" = pyDictGet c9InvMembers "subtotal" :=
  c9_passthrough c9ClassResp c9InvResp "document_type" "subtotal"
    c9ClassMembers c9InvMembers (by rfl) (by rfl) (by rfl) (by rfl)
    (by decide) (by decide)

/-- C10: before parsing, `extract` deletes every occurrence of "```json"
and "```" anywhere in the response and trims whitespace; on parse failure
the truncated excerpt in the `error` field is taken from this stripped
text, and a schema-shaped JSON response whose string value contains these
substrings is parsed with them removed. -/
theorem c10_global_strip (s : String)
    (hs : pyJsonLoads (stripCodeFences s) = none) :
    stripCodeFences s = pyStrip (pyReplace (pyReplace s "```json" "") "```" "")
    ∧ extractField s "error"
      = some (.str ("Failed to parse response: " ++ pySliceTo (stripCodeFences s) 200))
    ∧ extractField "\x7b\"description\": \"x ```json y ``` z\"\x7d" "description"
      = some (.str "x  y  z") := by
  refine ⟨rfl, ?_, by rfl⟩
  unfold extractField extract
  rw [hs]
  rfl

/-- Witness for C10 at the fenced non-JSON response. -/
theorem c10_global_strip_witness :
    stripCodeFences "```json invalid ```"
      = pyStrip (pyReplace (pyReplace "```json invalid ```" "```json" "") "```" "")
    ∧ extractField "```json invalid ```" "error"
      = some (.str ("Failed to parse response: "
          ++ pySliceTo (stripCodeFences "```json invalid ```") 200))
    ∧ extractField "\x7b\"description\": \"x ```json y ``` z\"\x7d" "description"
      = some (.str "x  y  z") :=
  c10_global_strip "```json invalid ```" (by rfl)

end DocIntel
